import Mathlib

/-!
Verification of the StudySphere in-memory data store (`server/storage.ts`,
class `MemStorage`).

The JavaScript `Map<number, T>` collections are modelled as insertion-ordered
lists of entities (each entity carries its own `id`, mirroring the stored
value): `Array.from(map.values())` is exactly the list in insertion order,
`map.set` replaces in place when the key exists and appends otherwise,
`map.get` is a first-match scan, and `map.delete` removes the keyed entry and
reports whether it existed.  Timestamps (`new Date()`) are modelled as natural
numbers supplied as an explicit `now` argument to the operations whose source
reads the clock; `createStudySession` takes the argument too (the wall clock
exists when it runs) but, like the source, never consults it.  Vote counters
are integers, as JavaScript numbers under `votes + value` can go negative.

Filter objects (`Partial<T>`) are modelled as records of `Option`-fields over
the primitive (number/string) fields of each entity, and matching is the exact
shape of the source — `Object.entries(filters).every(([k, v]) => e[k] === v)` —
a conjunction over the list of checks induced by the present fields.  Fields
holding objects (`Date`, arrays such as `tags`) are not included in the filter
records: JavaScript `===` compares those by reference identity, which the
route layer never exercises and a value-level model cannot express.
-/

namespace StudySphere

/-- JavaScript `map.get(id)` over the insertion-ordered value list. -/
def mapGet (gid : α → Nat) (l : List α) (id : Nat) : Option α :=
  l.find? (fun x => gid x == id)

/-- JavaScript `map.set(id, v)`: replace in place when the key is present,
append otherwise. -/
def mapSet (gid : α → Nat) (l : List α) (id : Nat) (v : α) : List α :=
  if l.any (fun x => gid x == id) then
    l.map (fun x => if gid x == id then v else x)
  else
    l ++ [v]

/-- JavaScript `map.delete(id)`: remove the keyed entry, report existence. -/
def mapDelete (gid : α → Nat) (l : List α) (id : Nat) : Bool × List α :=
  (l.any (fun x => gid x == id), l.filter (fun x => !(gid x == id)))

/-! ## Entities (shared/schema types as stored by MemStorage) -/

structure User where
  id : Nat
  username : String
  email : String
  password : String
  createdAt : Nat
  points : Nat
deriving DecidableEq

structure InsertUser where
  username : String
  email : String
  password : String
deriving DecidableEq

/-- Caller-side `Partial<User>` for `updateUser`.  The `id` and `createdAt`
slots are omitted: no caller passes them (overwriting `id` would re-key the
entity) and the claims do not exercise them. -/
structure UserUpdate where
  username : Option String
  email : Option String
  password : Option String
  points : Option Nat
deriving DecidableEq

/-- JavaScript object spread union for updateUser. -/
def applyUserUpdate (u : User) (d : UserUpdate) : User :=
  { u with
    username := d.username.getD u.username
    email := d.email.getD u.email
    password := d.password.getD u.password
    points := d.points.getD u.points }

structure Paper where
  id : Nat
  uploaderId : Nat
  title : String
  course : String
  year : Nat
  institution : String
  fileUrl : String
  uploadDate : Nat
  downloads : Nat
deriving DecidableEq

structure InsertPaper where
  uploaderId : Nat
  title : String
  course : String
  year : Nat
  institution : String
  fileUrl : String
deriving DecidableEq

structure DiscussionPost where
  id : Nat
  authorId : Nat
  title : String
  content : String
  course : String
  tags : List String
  createdAt : Nat
  updatedAt : Nat
  votes : Int
deriving DecidableEq

structure InsertDiscussionPost where
  authorId : Nat
  title : String
  content : String
  course : String
  tags : List String
deriving DecidableEq

structure DiscussionReply where
  id : Nat
  postId : Nat
  authorId : Nat
  content : String
  createdAt : Nat
  updatedAt : Nat
  votes : Int
deriving DecidableEq

structure InsertDiscussionReply where
  postId : Nat
  authorId : Nat
  content : String
deriving DecidableEq

structure Resource where
  id : Nat
  uploaderId : Nat
  title : String
  course : String
  fileUrl : String
  uploadDate : Nat
  downloads : Nat
  rating : Nat
deriving DecidableEq

structure InsertResource where
  uploaderId : Nat
  title : String
  course : String
  fileUrl : String
deriving DecidableEq

structure StudyGroup where
  id : Nat
  creatorId : Nat
  name : String
  course : String
  color : String
  createdAt : Nat
deriving DecidableEq

structure InsertStudyGroup where
  creatorId : Nat
  name : String
  course : String
  color : String
deriving DecidableEq

structure StudyGroupMember where
  id : Nat
  groupId : Nat
  userId : Nat
  isAdmin : Bool
  joinedAt : Nat
deriving DecidableEq

structure InsertStudyGroupMember where
  groupId : Nat
  userId : Nat
  isAdmin : Bool
deriving DecidableEq

/-- A study session as stored by `createStudySession`: the spread of the
insert fields plus the assigned `id` — the source assigns no timestamp here. -/
structure StudySession where
  id : Nat
  groupId : Nat
  createdBy : Nat
  title : String
  startTime : Nat
  endTime : Nat
  isVirtual : Bool
  location : String
deriving DecidableEq

structure InsertStudySession where
  groupId : Nat
  createdBy : Nat
  title : String
  startTime : Nat
  endTime : Nat
  isVirtual : Bool
  location : String
deriving DecidableEq

structure Activity where
  id : Nat
  userId : Nat
  type : String
  targetId : Nat
  targetType : String
  createdAt : Nat
deriving DecidableEq

structure InsertActivity where
  userId : Nat
  type : String
  targetId : Nat
  targetType : String
deriving DecidableEq

/-! ## The MemStorage state -/

structure MemStorage where
  users : List User
  papers : List Paper
  discussionPosts : List DiscussionPost
  discussionReplies : List DiscussionReply
  resources : List Resource
  studyGroups : List StudyGroup
  studyGroupMembers : List StudyGroupMember
  studySessions : List StudySession
  activities : List Activity
  currentUserId : Nat
  currentPaperId : Nat
  currentDiscussionPostId : Nat
  currentDiscussionReplyId : Nat
  currentResourceId : Nat
  currentStudyGroupId : Nat
  currentStudyGroupMemberId : Nat
  currentStudySessionId : Nat
  currentActivityId : Nat
deriving DecidableEq

/-- The constructor: empty collections, all id counters start at 1. -/
def init : MemStorage :=
  { users := [], papers := [], discussionPosts := [], discussionReplies := []
    resources := [], studyGroups := [], studyGroupMembers := []
    studySessions := [], activities := []
    currentUserId := 1, currentPaperId := 1, currentDiscussionPostId := 1
    currentDiscussionReplyId := 1, currentResourceId := 1
    currentStudyGroupId := 1, currentStudyGroupMemberId := 1
    currentStudySessionId := 1, currentActivityId := 1 }

/-! ## User operations -/

def getUser (s : MemStorage) (id : Nat) : Option User :=
  mapGet User.id s.users id

def getUserByUsername (s : MemStorage) (username : String) : Option User :=
  s.users.find? (fun u => u.username.toLower == username.toLower)

def getUserByEmail (s : MemStorage) (email : String) : Option User :=
  s.users.find? (fun u => u.email.toLower == email.toLower)

def createUser (s : MemStorage) (inp : InsertUser) (now : Nat) :
    User × MemStorage :=
  let id := s.currentUserId
  let user : User :=
    { id, username := inp.username, email := inp.email
      password := inp.password, createdAt := now, points := 0 }
  (user, { s with users := mapSet User.id s.users id user
                  currentUserId := id + 1 })

def updateUser (s : MemStorage) (id : Nat) (d : UserUpdate) :
    Option User × MemStorage :=
  match getUser s id with
  | none => (none, s)
  | some u =>
      let u' := applyUserUpdate u d
      (some u', { s with users := mapSet User.id s.users id u' })

/-! ## Paper operations -/

def createPaper (s : MemStorage) (inp : InsertPaper) (now : Nat) :
    Paper × MemStorage :=
  let id := s.currentPaperId
  let newPaper : Paper :=
    { id, uploaderId := inp.uploaderId, title := inp.title
      course := inp.course, year := inp.year, institution := inp.institution
      fileUrl := inp.fileUrl, uploadDate := now, downloads := 0 }
  (newPaper, { s with papers := mapSet Paper.id s.papers id newPaper
                      currentPaperId := id + 1 })

def getPaper (s : MemStorage) (id : Nat) : Option Paper :=
  mapGet Paper.id s.papers id

/-- The `Partial<Paper>` filter record (primitive fields). -/
structure PaperFilter where
  id : Option Nat := none
  uploaderId : Option Nat := none
  title : Option String := none
  course : Option String := none
  year : Option Nat := none
  institution : Option String := none
  fileUrl : Option String := none
  downloads : Option Nat := none
deriving DecidableEq

/-- A present filter field contributes one strict-equality check. -/
def optCheck {α β : Type} (o : Option β) (k : β → α → Bool) : List (α → Bool) :=
  match o with
  | none => []
  | some v => [k v]

/-- The list `Object.entries(filters)` induces, as equality checks. -/
def paperChecks (f : PaperFilter) : List (Paper → Bool) :=
  optCheck f.id (fun v p => p.id == v) ++
  optCheck f.uploaderId (fun v p => p.uploaderId == v) ++
  optCheck f.title (fun v p => p.title == v) ++
  optCheck f.course (fun v p => p.course == v) ++
  optCheck f.year (fun v p => p.year == v) ++
  optCheck f.institution (fun v p => p.institution == v) ++
  optCheck f.fileUrl (fun v p => p.fileUrl == v) ++
  optCheck f.downloads (fun v p => p.downloads == v)

/-- `Object.entries(filters).every(([key, value]) => paper[key] === value)`. -/
def matchesPaper (f : PaperFilter) (p : Paper) : Bool :=
  (paperChecks f).all (fun c => c p)

def getPapers (s : MemStorage) (filters : Option PaperFilter) : List Paper :=
  match filters with
  | none => s.papers
  | some f => s.papers.filter (fun p => matchesPaper f p)

def incrementPaperDownloads (s : MemStorage) (id : Nat) :
    Option Paper × MemStorage :=
  match getPaper s id with
  | none => (none, s)
  | some p =>
      let updatedPaper := { p with downloads := p.downloads + 1 }
      (some updatedPaper,
       { s with papers := mapSet Paper.id s.papers id updatedPaper })

/-! ## Discussion operations -/

def createDiscussionPost (s : MemStorage) (inp : InsertDiscussionPost)
    (now : Nat) : DiscussionPost × MemStorage :=
  let id := s.currentDiscussionPostId
  let newPost : DiscussionPost :=
    { id, authorId := inp.authorId, title := inp.title
      content := inp.content, course := inp.course, tags := inp.tags
      createdAt := now, updatedAt := now, votes := 0 }
  (newPost,
   { s with discussionPosts := mapSet DiscussionPost.id s.discussionPosts id newPost
            currentDiscussionPostId := id + 1 })

def getDiscussionPost (s : MemStorage) (id : Nat) : Option DiscussionPost :=
  mapGet DiscussionPost.id s.discussionPosts id

structure PostFilter where
  id : Option Nat := none
  authorId : Option Nat := none
  title : Option String := none
  content : Option String := none
  course : Option String := none
deriving DecidableEq

def postChecks (f : PostFilter) : List (DiscussionPost → Bool) :=
  optCheck f.id (fun v p => p.id == v) ++
  optCheck f.authorId (fun v p => p.authorId == v) ++
  optCheck f.title (fun v p => p.title == v) ++
  optCheck f.content (fun v p => p.content == v) ++
  optCheck f.course (fun v p => p.course == v)

def matchesPost (f : PostFilter) (p : DiscussionPost) : Bool :=
  (postChecks f).all (fun c => c p)

def getDiscussionPosts (s : MemStorage) (filters : Option PostFilter) :
    List DiscussionPost :=
  match filters with
  | none => s.discussionPosts
  | some f => s.discussionPosts.filter (fun p => matchesPost f p)

def createDiscussionReply (s : MemStorage) (inp : InsertDiscussionReply)
    (now : Nat) : DiscussionReply × MemStorage :=
  let id := s.currentDiscussionReplyId
  let newReply : DiscussionReply :=
    { id, postId := inp.postId, authorId := inp.authorId
      content := inp.content, createdAt := now, updatedAt := now, votes := 0 }
  (newReply,
   { s with discussionReplies :=
              mapSet DiscussionReply.id s.discussionReplies id newReply
            currentDiscussionReplyId := id + 1 })

def getDiscussionReplies (s : MemStorage) (postId : Nat) :
    List DiscussionReply :=
  s.discussionReplies.filter (fun r => r.postId == postId)

def voteDiscussionPost (s : MemStorage) (id : Nat) (value : Int) :
    Option DiscussionPost × MemStorage :=
  match getDiscussionPost s id with
  | none => (none, s)
  | some post =>
      let updatedPost := { post with votes := post.votes + value }
      (some updatedPost,
       { s with discussionPosts :=
                  mapSet DiscussionPost.id s.discussionPosts id updatedPost })

def voteDiscussionReply (s : MemStorage) (id : Nat) (value : Int) :
    Option DiscussionReply × MemStorage :=
  match mapGet DiscussionReply.id s.discussionReplies id with
  | none => (none, s)
  | some reply =>
      let updatedReply := { reply with votes := reply.votes + value }
      (some updatedReply,
       { s with discussionReplies :=
                  mapSet DiscussionReply.id s.discussionReplies id updatedReply })

/-! ## Resource operations -/

def createResource (s : MemStorage) (inp : InsertResource) (now : Nat) :
    Resource × MemStorage :=
  let id := s.currentResourceId
  let newResource : Resource :=
    { id, uploaderId := inp.uploaderId, title := inp.title
      course := inp.course, fileUrl := inp.fileUrl, uploadDate := now
      downloads := 0, rating := 0 }
  (newResource,
   { s with resources := mapSet Resource.id s.resources id newResource
            currentResourceId := id + 1 })

def getResource (s : MemStorage) (id : Nat) : Option Resource :=
  mapGet Resource.id s.resources id

structure ResourceFilter where
  id : Option Nat := none
  uploaderId : Option Nat := none
  title : Option String := none
  course : Option String := none
  fileUrl : Option String := none
  downloads : Option Nat := none
  rating : Option Nat := none
deriving DecidableEq

def resourceChecks (f : ResourceFilter) : List (Resource → Bool) :=
  optCheck f.id (fun v r => r.id == v) ++
  optCheck f.uploaderId (fun v r => r.uploaderId == v) ++
  optCheck f.title (fun v r => r.title == v) ++
  optCheck f.course (fun v r => r.course == v) ++
  optCheck f.fileUrl (fun v r => r.fileUrl == v) ++
  optCheck f.downloads (fun v r => r.downloads == v) ++
  optCheck f.rating (fun v r => r.rating == v)

def matchesResource (f : ResourceFilter) (r : Resource) : Bool :=
  (resourceChecks f).all (fun c => c r)

def getResources (s : MemStorage) (filters : Option ResourceFilter) :
    List Resource :=
  match filters with
  | none => s.resources
  | some f => s.resources.filter (fun r => matchesResource f r)

def incrementResourceDownloads (s : MemStorage) (id : Nat) :
    Option Resource × MemStorage :=
  match getResource s id with
  | none => (none, s)
  | some r =>
      let updatedResource := { r with downloads := r.downloads + 1 }
      (some updatedResource,
       { s with resources := mapSet Resource.id s.resources id updatedResource })

def rateResource (s : MemStorage) (id : Nat) (rating : Nat) :
    Option Resource × MemStorage :=
  match getResource s id with
  | none => (none, s)
  | some r =>
      let updatedResource := { r with rating := rating }
      (some updatedResource,
       { s with resources := mapSet Resource.id s.resources id updatedResource })

/-! ## Study group operations -/

def createStudyGroup (s : MemStorage) (inp : InsertStudyGroup) (now : Nat) :
    StudyGroup × MemStorage :=
  let id := s.currentStudyGroupId
  let newGroup : StudyGroup :=
    { id, creatorId := inp.creatorId, name := inp.name
      course := inp.course, color := inp.color, createdAt := now }
  (newGroup,
   { s with studyGroups := mapSet StudyGroup.id s.studyGroups id newGroup
            currentStudyGroupId := id + 1 })

def getStudyGroup (s : MemStorage) (id : Nat) : Option StudyGroup :=
  mapGet StudyGroup.id s.studyGroups id

structure GroupFilter where
  id : Option Nat := none
  creatorId : Option Nat := none
  name : Option String := none
  course : Option String := none
  color : Option String := none
deriving DecidableEq

def groupChecks (f : GroupFilter) : List (StudyGroup → Bool) :=
  optCheck f.id (fun v g => g.id == v) ++
  optCheck f.creatorId (fun v g => g.creatorId == v) ++
  optCheck f.name (fun v g => g.name == v) ++
  optCheck f.course (fun v g => g.course == v) ++
  optCheck f.color (fun v g => g.color == v)

def matchesGroup (f : GroupFilter) (g : StudyGroup) : Bool :=
  (groupChecks f).all (fun c => c g)

def getStudyGroups (s : MemStorage) (filters : Option GroupFilter) :
    List StudyGroup :=
  match filters with
  | none => s.studyGroups
  | some f => s.studyGroups.filter (fun g => matchesGroup f g)

def getUserStudyGroups (s : MemStorage) (userId : Nat) : List StudyGroup :=
  let memberGroups :=
    (s.studyGroupMembers.filter (fun m => m.userId == userId)).map
      (fun m => m.groupId)
  s.studyGroups.filter (fun g => memberGroups.contains g.id)

/-! ## Study group member operations -/

def addStudyGroupMember (s : MemStorage) (inp : InsertStudyGroupMember)
    (now : Nat) : StudyGroupMember × MemStorage :=
  let id := s.currentStudyGroupMemberId
  let newMember : StudyGroupMember :=
    { id, groupId := inp.groupId, userId := inp.userId
      isAdmin := inp.isAdmin, joinedAt := now }
  (newMember,
   { s with studyGroupMembers :=
              mapSet StudyGroupMember.id s.studyGroupMembers id newMember
            currentStudyGroupMemberId := id + 1 })

def getStudyGroupMembers (s : MemStorage) (groupId : Nat) :
    List StudyGroupMember :=
  s.studyGroupMembers.filter (fun m => m.groupId == groupId)

def removeStudyGroupMember (s : MemStorage) (groupId userId : Nat) :
    Bool × MemStorage :=
  match s.studyGroupMembers.find?
      (fun m => m.groupId == groupId && m.userId == userId) with
  | some memberToDelete =>
      let d := mapDelete StudyGroupMember.id s.studyGroupMembers memberToDelete.id
      (d.1, { s with studyGroupMembers := d.2 })
  | none => (false, s)

/-! ## Study session operations -/

/-- Source: `const newSession = { ...session, id }` — only the id is added;
no clock is read, no timestamp stored.  The `now` argument represents the
wall clock at call time, which the source ignores. -/
def createStudySession (s : MemStorage) (inp : InsertStudySession)
    (_now : Nat) : StudySession × MemStorage :=
  let id := s.currentStudySessionId
  let newSession : StudySession :=
    { id, groupId := inp.groupId, createdBy := inp.createdBy
      title := inp.title, startTime := inp.startTime, endTime := inp.endTime
      isVirtual := inp.isVirtual, location := inp.location }
  (newSession,
   { s with studySessions := mapSet StudySession.id s.studySessions id newSession
            currentStudySessionId := id + 1 })

def getStudySession (s : MemStorage) (id : Nat) : Option StudySession :=
  mapGet StudySession.id s.studySessions id

def getStudySessions (s : MemStorage) (groupId : Nat) : List StudySession :=
  s.studySessions.filter (fun x => x.groupId == groupId)

/-- Sessions of the user's groups with `startTime` strictly in the future,
sorted ascending by `startTime` (JavaScript stable sort modelled by
`mergeSort`). -/
def getUpcomingStudySessions (s : MemStorage) (userId : Nat) (now : Nat) :
    List StudySession :=
  let memberGroups :=
    (s.studyGroupMembers.filter (fun m => m.userId == userId)).map
      (fun m => m.groupId)
  (s.studySessions.filter
      (fun x => memberGroups.contains x.groupId && decide (now < x.startTime))).mergeSort
    (fun a b => decide (a.startTime ≤ b.startTime))

/-! ## Activity operations -/

def createActivity (s : MemStorage) (inp : InsertActivity) (now : Nat) :
    Activity × MemStorage :=
  let id := s.currentActivityId
  let newActivity : Activity :=
    { id, userId := inp.userId, type := inp.type
      targetId := inp.targetId, targetType := inp.targetType, createdAt := now }
  (newActivity,
   { s with activities := mapSet Activity.id s.activities id newActivity
            currentActivityId := id + 1 })

def getUserActivities (s : MemStorage) (userId : Nat) (limit : Option Nat) :
    List Activity :=
  let userActivities :=
    (s.activities.filter (fun a => a.userId == userId)).mergeSort
      (fun a b => decide (b.createdAt ≤ a.createdAt))
  match limit with
  | none => userActivities
  | some n => userActivities.take n

def getRecentActivities (s : MemStorage) (limit : Option Nat) :
    List Activity :=
  let allActivities :=
    s.activities.mergeSort (fun a b => decide (b.createdAt ≤ a.createdAt))
  match limit with
  | none => allActivities
  | some n => allActivities.take n

/-! ## Operation alphabet and traces

The state-mutating operations of `MemStorage`, as an inductive alphabet, so
that properties quantifying over "every sequence of store operations" can be
stated.  Read operations are pure and need no constructor.  Creation
operations carry the wall-clock reading `now` made when they run. -/

inductive Op where
  | createUser (inp : InsertUser) (now : Nat)
  | updateUser (id : Nat) (d : UserUpdate)
  | createPaper (inp : InsertPaper) (now : Nat)
  | incrementPaperDownloads (id : Nat)
  | createDiscussionPost (inp : InsertDiscussionPost) (now : Nat)
  | createDiscussionReply (inp : InsertDiscussionReply) (now : Nat)
  | voteDiscussionPost (id : Nat) (value : Int)
  | voteDiscussionReply (id : Nat) (value : Int)
  | createResource (inp : InsertResource) (now : Nat)
  | incrementResourceDownloads (id : Nat)
  | rateResource (id : Nat) (rating : Nat)
  | createStudyGroup (inp : InsertStudyGroup) (now : Nat)
  | addStudyGroupMember (inp : InsertStudyGroupMember) (now : Nat)
  | removeStudyGroupMember (groupId userId : Nat)
  | createStudySession (inp : InsertStudySession) (now : Nat)
  | createActivity (inp : InsertActivity) (now : Nat)
deriving DecidableEq

/-- The state reached after one operation. -/
def run (s : MemStorage) : Op → MemStorage
  | .createUser inp now => (createUser s inp now).2
  | .updateUser id d => (updateUser s id d).2
  | .createPaper inp now => (createPaper s inp now).2
  | .incrementPaperDownloads id => (incrementPaperDownloads s id).2
  | .createDiscussionPost inp now => (createDiscussionPost s inp now).2
  | .createDiscussionReply inp now => (createDiscussionReply s inp now).2
  | .voteDiscussionPost id v => (voteDiscussionPost s id v).2
  | .voteDiscussionReply id v => (voteDiscussionReply s id v).2
  | .createResource inp now => (createResource s inp now).2
  | .incrementResourceDownloads id => (incrementResourceDownloads s id).2
  | .rateResource id r => (rateResource s id r).2
  | .createStudyGroup inp now => (createStudyGroup s inp now).2
  | .addStudyGroupMember inp now => (addStudyGroupMember s inp now).2
  | .removeStudyGroupMember g u => (removeStudyGroupMember s g u).2
  | .createStudySession inp now => (createStudySession s inp now).2
  | .createActivity inp now => (createActivity s inp now).2

def runAll (s : MemStorage) : List Op → MemStorage
  | [] => s
  | op :: tr => runAll (run s op) tr

/-- The nine entity types, each with its own id counter. -/
inductive Kind where
  | user | paper | post | reply | resource | group | member | session | activity
deriving DecidableEq

def counterOf (k : Kind) (s : MemStorage) : Nat :=
  match k with
  | .user => s.currentUserId
  | .paper => s.currentPaperId
  | .post => s.currentDiscussionPostId
  | .reply => s.currentDiscussionReplyId
  | .resource => s.currentResourceId
  | .group => s.currentStudyGroupId
  | .member => s.currentStudyGroupMemberId
  | .session => s.currentStudySessionId
  | .activity => s.currentActivityId

/-- The identifiers an operation issues when run in state `s`: each create
issues exactly the current counter of its entity type. -/
def opIssues (s : MemStorage) : Op → List (Kind × Nat)
  | .createUser _ _ => [(.user, s.currentUserId)]
  | .createPaper _ _ => [(.paper, s.currentPaperId)]
  | .createDiscussionPost _ _ => [(.post, s.currentDiscussionPostId)]
  | .createDiscussionReply _ _ => [(.reply, s.currentDiscussionReplyId)]
  | .createResource _ _ => [(.resource, s.currentResourceId)]
  | .createStudyGroup _ _ => [(.group, s.currentStudyGroupId)]
  | .addStudyGroupMember _ _ => [(.member, s.currentStudyGroupMemberId)]
  | .createStudySession _ _ => [(.session, s.currentStudySessionId)]
  | .createActivity _ _ => [(.activity, s.currentActivityId)]
  | _ => []

/-- All identifiers issued along a trace, in issue order. -/
def issued (s : MemStorage) : List Op → List (Kind × Nat)
  | [] => []
  | op :: tr => opIssues s op ++ issued (run s op) tr

/-- The identifiers of one entity type among issued ids, in issue order. -/
def kindIds (k : Kind) (l : List (Kind × Nat)) : List Nat :=
  l.filterMap (fun p => if p.1 = k then some p.2 else none)

/-- Well-formedness: every stored entity's id is below its type's counter.
Holds in `init` and is preserved by every operation. -/
def WF (s : MemStorage) : Prop :=
  (∀ x ∈ s.users, x.id < s.currentUserId) ∧
  (∀ x ∈ s.papers, x.id < s.currentPaperId) ∧
  (∀ x ∈ s.discussionPosts, x.id < s.currentDiscussionPostId) ∧
  (∀ x ∈ s.discussionReplies, x.id < s.currentDiscussionReplyId) ∧
  (∀ x ∈ s.resources, x.id < s.currentResourceId) ∧
  (∀ x ∈ s.studyGroups, x.id < s.currentStudyGroupId) ∧
  (∀ x ∈ s.studyGroupMembers, x.id < s.currentStudyGroupMemberId) ∧
  (∀ x ∈ s.studySessions, x.id < s.currentStudySessionId) ∧
  (∀ x ∈ s.activities, x.id < s.currentActivityId)

instance : DecidablePred WF := fun s => by
  unfold WF
  infer_instance

/-! ## Filter specification views -/

/-- A singleton filter for a present field. -/
def optFilter {β F : Type} (o : Option β) (mk : β → F) : List F :=
  match o with
  | none => []
  | some v => [mk v]

/-- The spec reading of a paper filter: every field named in the filter is
strictly equal to the filter value. -/
def MatchesPaperSpec (f : PaperFilter) (p : Paper) : Prop :=
  (∀ v, f.id = some v → p.id = v) ∧
  (∀ v, f.uploaderId = some v → p.uploaderId = v) ∧
  (∀ v, f.title = some v → p.title = v) ∧
  (∀ v, f.course = some v → p.course = v) ∧
  (∀ v, f.year = some v → p.year = v) ∧
  (∀ v, f.institution = some v → p.institution = v) ∧
  (∀ v, f.fileUrl = some v → p.fileUrl = v) ∧
  (∀ v, f.downloads = some v → p.downloads = v)

/-- The single-field filters a paper filter decomposes into. -/
def paperSingles (f : PaperFilter) : List PaperFilter :=
  optFilter f.id (fun v => { id := some v }) ++
  optFilter f.uploaderId (fun v => { uploaderId := some v }) ++
  optFilter f.title (fun v => { title := some v }) ++
  optFilter f.course (fun v => { course := some v }) ++
  optFilter f.year (fun v => { year := some v }) ++
  optFilter f.institution (fun v => { institution := some v }) ++
  optFilter f.fileUrl (fun v => { fileUrl := some v }) ++
  optFilter f.downloads (fun v => { downloads := some v })

def MatchesPostSpec (f : PostFilter) (p : DiscussionPost) : Prop :=
  (∀ v, f.id = some v → p.id = v) ∧
  (∀ v, f.authorId = some v → p.authorId = v) ∧
  (∀ v, f.title = some v → p.title = v) ∧
  (∀ v, f.content = some v → p.content = v) ∧
  (∀ v, f.course = some v → p.course = v)

def postSingles (f : PostFilter) : List PostFilter :=
  optFilter f.id (fun v => { id := some v }) ++
  optFilter f.authorId (fun v => { authorId := some v }) ++
  optFilter f.title (fun v => { title := some v }) ++
  optFilter f.content (fun v => { content := some v }) ++
  optFilter f.course (fun v => { course := some v })

def MatchesGroupSpec (f : GroupFilter) (g : StudyGroup) : Prop :=
  (∀ v, f.id = some v → g.id = v) ∧
  (∀ v, f.creatorId = some v → g.creatorId = v) ∧
  (∀ v, f.name = some v → g.name = v) ∧
  (∀ v, f.course = some v → g.course = v) ∧
  (∀ v, f.color = some v → g.color = v)

def groupSingles (f : GroupFilter) : List GroupFilter :=
  optFilter f.id (fun v => { id := some v }) ++
  optFilter f.creatorId (fun v => { creatorId := some v }) ++
  optFilter f.name (fun v => { name := some v }) ++
  optFilter f.course (fun v => { course := some v }) ++
  optFilter f.color (fun v => { color := some v })

def MatchesResourceSpec (f : ResourceFilter) (r : Resource) : Prop :=
  (∀ v, f.id = some v → r.id = v) ∧
  (∀ v, f.uploaderId = some v → r.uploaderId = v) ∧
  (∀ v, f.title = some v → r.title = v) ∧
  (∀ v, f.course = some v → r.course = v) ∧
  (∀ v, f.fileUrl = some v → r.fileUrl = v) ∧
  (∀ v, f.downloads = some v → r.downloads = v) ∧
  (∀ v, f.rating = some v → r.rating = v)

def resourceSingles (f : ResourceFilter) : List ResourceFilter :=
  optFilter f.id (fun v => { id := some v }) ++
  optFilter f.uploaderId (fun v => { uploaderId := some v }) ++
  optFilter f.title (fun v => { title := some v }) ++
  optFilter f.course (fun v => { course := some v }) ++
  optFilter f.fileUrl (fun v => { fileUrl := some v }) ++
  optFilter f.downloads (fun v => { downloads := some v }) ++
  optFilter f.rating (fun v => { rating := some v })

/-! ## Iterated increment (for counting downloads) -/

/-- Applies `incrementPaperDownloads` to the same id `n` times. -/
def iterIncPaper (s : MemStorage) (id : Nat) : Nat → MemStorage
  | 0 => s
  | n + 1 => (incrementPaperDownloads (iterIncPaper s id n) id).2

/-! ## Reference-semantics model of the paper collection

The value-level `MemStorage` model above abstracts from JavaScript object
identity.  The ownership question — do reads hand out copies or aliases? —
is about identity, so the paper collection is modelled once more with the
heap explicit: JavaScript objects live in a heap (addresses are list
indices, allocation appends), the `Map` stores id-to-address entries, and
`getPaper`, which in the source is `return this.papers.get(id)`, hands the
caller the stored address itself, not a fresh copy.  A caller writing
through that address (`paper.downloads = 99`) is `callerMutate`. -/

structure PaperHeapStore where
  heap : List Paper
  papers : List (Nat × Nat)
  currentPaperId : Nat
deriving DecidableEq

def initHeapStore : PaperHeapStore :=
  { heap := [], papers := [], currentPaperId := 1 }

def heapRead (h : List Paper) (a : Nat) : Option Paper := h[a]?

def heapWrite (h : List Paper) (a : Nat) (p : Paper) : List Paper := h.set a p

/-- `createPaper` with the allocation explicit: the new object is placed on
the heap and the map records its address; the returned value is the
reference (address) to the stored object, exactly what the source's
`return newPaper` hands back. -/
def createPaperRef (s : PaperHeapStore) (inp : InsertPaper) (now : Nat) :
    Nat × PaperHeapStore :=
  let id := s.currentPaperId
  let newPaper : Paper :=
    { id, uploaderId := inp.uploaderId, title := inp.title
      course := inp.course, year := inp.year, institution := inp.institution
      fileUrl := inp.fileUrl, uploadDate := now, downloads := 0 }
  let a := s.heap.length
  (a, { heap := s.heap ++ [newPaper]
        papers := mapSet Prod.fst s.papers id (id, a)
        currentPaperId := id + 1 })

/-- `this.papers.get(id)` under reference semantics: the address stored in
the map, not a copy of the object. -/
def getPaperRef (s : PaperHeapStore) (id : Nat) : Option Nat :=
  (mapGet Prod.fst s.papers id).map Prod.snd

/-- A caller mutating in place the object a read handed it: a heap write
through the returned reference, performed outside the store's operations. -/
def callerMutate (s : PaperHeapStore) (a : Nat) (p : Paper) : PaperHeapStore :=
  { s with heap := heapWrite s.heap a p }

/-- The entity the store holds under `id` (the map entry, dereferenced). -/
def storedPaper (s : PaperHeapStore) (id : Nat) : Option Paper :=
  (getPaperRef s id).bind (fun a => heapRead s.heap a)

/-! ## Sample inputs for concrete instantiations -/

def sampleInsertUser : InsertUser :=
  { username := "alice", email := "a@x.y", password := "h" }

def sampleInsertPaper : InsertPaper :=
  { uploaderId := 1, title := "t", course := "c", year := 2024
    institution := "i", fileUrl := "u" }

def sampleInsertPost : InsertDiscussionPost :=
  { authorId := 1, title := "q", content := "body", course := "c", tags := [] }

def sampleInsertReply : InsertDiscussionReply :=
  { postId := 1, authorId := 1, content := "r" }

def sampleInsertResource : InsertResource :=
  { uploaderId := 1, title := "n", course := "c", fileUrl := "u" }

def sampleInsertGroup : InsertStudyGroup :=
  { creatorId := 1, name := "g", course := "c", color := "blue" }

def sampleInsertMember : InsertStudyGroupMember :=
  { groupId := 1, userId := 2, isAdmin := false }

def sampleInsertSession : InsertStudySession :=
  { groupId := 1, createdBy := 1, title := "s", startTime := 50
    endTime := 60, isVirtual := true, location := "l" }

def sampleInsertActivity : InsertActivity :=
  { userId := 1, type := "paper_upload", targetId := 1, targetType := "paper" }

/-- A store holding one group and two duplicate membership rows for the
same (groupId, userId) pair, as duplicate joins can produce. -/
def dupMemberStore : MemStorage :=
  { init with
    studyGroups :=
      [{ id := 1, creatorId := 1, name := "g", course := "c"
         color := "blue", createdAt := 0 }]
    studyGroupMembers :=
      [{ id := 1, groupId := 1, userId := 2, isAdmin := false, joinedAt := 0 },
       { id := 2, groupId := 1, userId := 2, isAdmin := false, joinedAt := 5 }]
    currentStudyGroupId := 2
    currentStudyGroupMemberId := 3 }

/-! ## Generic facts about the keyed-map model -/

theorem mapGet_eq_none {α : Type} (gid : α → Nat) (l : List α) (id : Nat)
    (h : ∀ x ∈ l, gid x ≠ id) : mapGet gid l id = none := by
  apply List.find?_eq_none.2
  intro x hx
  simpa using h x hx

theorem mapSet_fresh {α : Type} (gid : α → Nat) (l : List α) (id : Nat) (v : α)
    (h : ∀ x ∈ l, gid x ≠ id) : mapSet gid l id v = l ++ [v] := by
  unfold mapSet
  rw [if_neg]
  simp only [List.any_eq_true, beq_iff_eq, not_exists, not_and]
  intro x hx
  exact h x hx

theorem mapGet_append_fresh {α : Type} (gid : α → Nat) (l : List α) (id : Nat)
    (v : α) (h : ∀ x ∈ l, gid x ≠ id) (hv : gid v = id) :
    mapGet gid (l ++ [v]) id = some v := by
  have hnone : List.find? (fun x => gid x == id) l = none :=
    mapGet_eq_none gid l id h
  unfold mapGet
  rw [List.find?_append, hnone]
  simp [hv]

theorem find?_map_replace {α : Type} (gid : α → Nat) (id : Nat) (v : α)
    (hv : gid v = id) :
    ∀ l : List α, (List.find? (fun x => gid x == id) l).isSome = true →
      List.find? (fun x => gid x == id)
        (l.map (fun x => if gid x == id then v else x)) = some v := by
  intro l
  induction l with
  | nil => simp
  | cons a l ih =>
      intro hs
      by_cases h : gid a = id
      · simp [h, hv]
      · have hs' : (List.find? (fun x => gid x == id) l).isSome = true := by
          simpa [List.find?_cons, h] using hs
        simpa [h] using ih hs'

theorem mapGet_mapSet_self {α : Type} (gid : α → Nat) (l : List α) (id : Nat)
    (v p : α) (hp : mapGet gid l id = some p) (hv : gid v = id) :
    mapGet gid (mapSet gid l id v) id = some v := by
  have hp' : List.find? (fun x => gid x == id) l = some p := hp
  have hmem : p ∈ l := List.mem_of_find?_eq_some hp'
  have hpid := List.find?_some hp'
  have hany : l.any (fun x => gid x == id) = true :=
    List.any_eq_true.2 ⟨p, hmem, hpid⟩
  unfold mapSet
  rw [if_pos hany]
  apply find?_map_replace gid id v hv
  simp [hp']

theorem map_gid_mapSet {α : Type} (gid : α → Nat) (l : List α) (id : Nat)
    (v : α) (hv : gid v = id)
    (hany : l.any (fun x => gid x == id) = true) :
    (mapSet gid l id v).map gid = l.map gid := by
  unfold mapSet
  rw [if_pos hany, List.map_map]
  apply List.map_congr_left
  intro x _
  simp only [Function.comp_apply]
  by_cases h : gid x = id
  · simp [h, hv]
  · simp [h]

theorem mem_mapSet {α : Type} (gid : α → Nat) (l : List α) (id : Nat)
    (v x : α) (hx : x ∈ mapSet gid l id v) : x ∈ l ∨ x = v := by
  unfold mapSet at hx
  by_cases hany : l.any (fun y => gid y == id) = true
  · rw [if_pos hany] at hx
    obtain ⟨y, hy, hxy⟩ := List.mem_map.1 hx
    by_cases h : gid y == id
    · right
      rw [if_pos h] at hxy
      exact hxy.symm
    · left
      rw [if_neg h] at hxy
      exact hxy ▸ hy
  · rw [if_neg hany] at hx
    rcases List.mem_append.1 hx with h | h
    · exact Or.inl h
    · exact Or.inr (List.mem_singleton.1 h)

theorem mapGet_isSome_any {α : Type} (gid : α → Nat) (l : List α) (id : Nat)
    (p : α) (hp : mapGet gid l id = some p) :
    l.any (fun x => gid x == id) = true := by
  have hp' : List.find? (fun x => gid x == id) l = some p := hp
  have hpid := List.find?_some hp'
  exact List.any_eq_true.2 ⟨p, List.mem_of_find?_eq_some hp', hpid⟩

theorem mapGet_id_eq {α : Type} (gid : α → Nat) (l : List α) (id : Nat)
    (p : α) (hp : mapGet gid l id = some p) : gid p = id := by
  have hp' : List.find? (fun x => gid x == id) l = some p := hp
  have := List.find?_some hp'
  simpa using this

theorem mapGet_mem {α : Type} (gid : α → Nat) (l : List α) (id : Nat)
    (p : α) (hp : mapGet gid l id = some p) : p ∈ l := by
  have hp' : List.find? (fun x => gid x == id) l = some p := hp
  exact List.mem_of_find?_eq_some hp'

theorem forall_lt_mapSet {α : Type} (gid : α → Nat) (l : List α) (id : Nat)
    (v : α) (c : Nat) (hl : ∀ x ∈ l, gid x < c) (hv : gid v < c) :
    ∀ x ∈ mapSet gid l id v, gid x < c := by
  intro x hx
  rcases mem_mapSet gid l id v x hx with h | h
  · exact hl x h
  · exact h ▸ hv

/-! ## Invariants along traces -/

theorem wf_init : WF init := by
  constructor <;> simp [init]

theorem wf_run (s : MemStorage) (op : Op) (h : WF s) : WF (run s op) := by
  obtain ⟨h1, h2, h3, h4, h5, h6, h7, h8, h9⟩ := h
  cases op with
  | createUser inp now =>
      refine ⟨?_, h2, h3, h4, h5, h6, h7, h8, h9⟩
      exact forall_lt_mapSet _ _ _ _ _
        (fun x hx => Nat.lt_succ_of_lt (h1 x hx)) (Nat.lt_succ_self _)
  | updateUser id d =>
      simp only [run, updateUser]
      split
      · exact ⟨h1, h2, h3, h4, h5, h6, h7, h8, h9⟩
      · next u heq =>
          refine ⟨?_, h2, h3, h4, h5, h6, h7, h8, h9⟩
          apply forall_lt_mapSet _ _ _ _ _ h1
          exact h1 u (mapGet_mem _ _ _ _ heq)
  | createPaper inp now =>
      refine ⟨h1, ?_, h3, h4, h5, h6, h7, h8, h9⟩
      exact forall_lt_mapSet _ _ _ _ _
        (fun x hx => Nat.lt_succ_of_lt (h2 x hx)) (Nat.lt_succ_self _)
  | incrementPaperDownloads id =>
      simp only [run, incrementPaperDownloads]
      split
      · exact ⟨h1, h2, h3, h4, h5, h6, h7, h8, h9⟩
      · next p heq =>
          refine ⟨h1, ?_, h3, h4, h5, h6, h7, h8, h9⟩
          apply forall_lt_mapSet _ _ _ _ _ h2
          exact h2 p (mapGet_mem _ _ _ _ heq)
  | createDiscussionPost inp now =>
      refine ⟨h1, h2, ?_, h4, h5, h6, h7, h8, h9⟩
      exact forall_lt_mapSet _ _ _ _ _
        (fun x hx => Nat.lt_succ_of_lt (h3 x hx)) (Nat.lt_succ_self _)
  | createDiscussionReply inp now =>
      refine ⟨h1, h2, h3, ?_, h5, h6, h7, h8, h9⟩
      exact forall_lt_mapSet _ _ _ _ _
        (fun x hx => Nat.lt_succ_of_lt (h4 x hx)) (Nat.lt_succ_self _)
  | voteDiscussionPost id v =>
      simp only [run, voteDiscussionPost]
      split
      · exact ⟨h1, h2, h3, h4, h5, h6, h7, h8, h9⟩
      · next p heq =>
          refine ⟨h1, h2, ?_, h4, h5, h6, h7, h8, h9⟩
          apply forall_lt_mapSet _ _ _ _ _ h3
          exact h3 p (mapGet_mem _ _ _ _ heq)
  | voteDiscussionReply id v =>
      simp only [run, voteDiscussionReply]
      split
      · exact ⟨h1, h2, h3, h4, h5, h6, h7, h8, h9⟩
      · next r heq =>
          refine ⟨h1, h2, h3, ?_, h5, h6, h7, h8, h9⟩
          apply forall_lt_mapSet _ _ _ _ _ h4
          exact h4 r (mapGet_mem _ _ _ _ heq)
  | createResource inp now =>
      refine ⟨h1, h2, h3, h4, ?_, h6, h7, h8, h9⟩
      exact forall_lt_mapSet _ _ _ _ _
        (fun x hx => Nat.lt_succ_of_lt (h5 x hx)) (Nat.lt_succ_self _)
  | incrementResourceDownloads id =>
      simp only [run, incrementResourceDownloads]
      split
      · exact ⟨h1, h2, h3, h4, h5, h6, h7, h8, h9⟩
      · next r heq =>
          refine ⟨h1, h2, h3, h4, ?_, h6, h7, h8, h9⟩
          apply forall_lt_mapSet _ _ _ _ _ h5
          exact h5 r (mapGet_mem _ _ _ _ heq)
  | rateResource id rt =>
      simp only [run, rateResource]
      split
      · exact ⟨h1, h2, h3, h4, h5, h6, h7, h8, h9⟩
      · next r heq =>
          refine ⟨h1, h2, h3, h4, ?_, h6, h7, h8, h9⟩
          apply forall_lt_mapSet _ _ _ _ _ h5
          exact h5 r (mapGet_mem _ _ _ _ heq)
  | createStudyGroup inp now =>
      refine ⟨h1, h2, h3, h4, h5, ?_, h7, h8, h9⟩
      exact forall_lt_mapSet _ _ _ _ _
        (fun x hx => Nat.lt_succ_of_lt (h6 x hx)) (Nat.lt_succ_self _)
  | addStudyGroupMember inp now =>
      refine ⟨h1, h2, h3, h4, h5, h6, ?_, h8, h9⟩
      exact forall_lt_mapSet _ _ _ _ _
        (fun x hx => Nat.lt_succ_of_lt (h7 x hx)) (Nat.lt_succ_self _)
  | removeStudyGroupMember g u =>
      simp only [run, removeStudyGroupMember]
      split
      · next m heq =>
          refine ⟨h1, h2, h3, h4, h5, h6, ?_, h8, h9⟩
          intro x hx
          exact h7 x (List.mem_of_mem_filter hx)
      · exact ⟨h1, h2, h3, h4, h5, h6, h7, h8, h9⟩
  | createStudySession inp now =>
      refine ⟨h1, h2, h3, h4, h5, h6, h7, ?_, h9⟩
      exact forall_lt_mapSet _ _ _ _ _
        (fun x hx => Nat.lt_succ_of_lt (h8 x hx)) (Nat.lt_succ_self _)
  | createActivity inp now =>
      refine ⟨h1, h2, h3, h4, h5, h6, h7, h8, ?_⟩
      exact forall_lt_mapSet _ _ _ _ _
        (fun x hx => Nat.lt_succ_of_lt (h9 x hx)) (Nat.lt_succ_self _)

theorem wf_runAll (s : MemStorage) (tr : List Op) (h : WF s) :
    WF (runAll s tr) := by
  induction tr generalizing s with
  | nil => exact h
  | cons op tr ih => exact ih (run s op) (wf_run s op h)

theorem counterOf_le_run (k : Kind) (s : MemStorage) (op : Op) :
    counterOf k s ≤ counterOf k (run s op) := by
  cases op <;> cases k <;>
    simp only [run, createUser, updateUser, createPaper,
      incrementPaperDownloads, createDiscussionPost, createDiscussionReply,
      voteDiscussionPost, voteDiscussionReply, createResource,
      incrementResourceDownloads, rateResource, createStudyGroup,
      addStudyGroupMember, removeStudyGroupMember, createStudySession,
      createActivity, counterOf] <;>
    (try split) <;> simp

theorem counterOf_le_runAll (k : Kind) (s : MemStorage) (tr : List Op) :
    counterOf k s ≤ counterOf k (runAll s tr) := by
  induction tr generalizing s with
  | nil => exact Nat.le_refl _
  | cons op tr ih =>
      exact Nat.le_trans (counterOf_le_run k s op) (ih (run s op))

theorem opIssues_mem (s : MemStorage) (op : Op) (k : Kind) (i : Nat)
    (h : (k, i) ∈ opIssues s op) :
    i = counterOf k s ∧ counterOf k s + 1 ≤ counterOf k (run s op) := by
  cases op <;>
    simp only [opIssues, List.mem_singleton, List.not_mem_nil,
      Prod.mk.injEq] at h <;>
    obtain ⟨hk, hi⟩ := h <;> subst hk <;> subst hi <;>
    simp [run, createUser, createPaper, createDiscussionPost,
      createDiscussionReply, createResource, createStudyGroup,
      addStudyGroupMember, createStudySession, createActivity, counterOf]

theorem issued_lt (s : MemStorage) (tr : List Op) (k : Kind) (i : Nat)
    (h : (k, i) ∈ issued s tr) : i < counterOf k (runAll s tr) := by
  induction tr generalizing s with
  | nil => simp [issued] at h
  | cons op tr ih =>
      simp only [runAll]
      rcases List.mem_append.1 h with h | h
      · obtain ⟨hi, hlt⟩ := opIssues_mem s op k i h
        have hmono := counterOf_le_runAll k (run s op) tr
        omega
      · exact ih (run s op) h

theorem kindIds_append (k : Kind) (a b : List (Kind × Nat)) :
    kindIds k (a ++ b) = kindIds k a ++ kindIds k b := by
  simp [kindIds, List.filterMap_append]

/-- One step preserves "the stored ids of each (never-deleted) collection are
exactly the issued ids of that type, in issue order". -/
theorem run_ids (s : MemStorage) (op : Op) (h : WF s) :
    (run s op).users.map User.id
      = s.users.map User.id ++ kindIds .user (opIssues s op) ∧
    (run s op).papers.map Paper.id
      = s.papers.map Paper.id ++ kindIds .paper (opIssues s op) ∧
    (run s op).discussionPosts.map DiscussionPost.id
      = s.discussionPosts.map DiscussionPost.id ++ kindIds .post (opIssues s op) ∧
    (run s op).discussionReplies.map DiscussionReply.id
      = s.discussionReplies.map DiscussionReply.id ++ kindIds .reply (opIssues s op) ∧
    (run s op).resources.map Resource.id
      = s.resources.map Resource.id ++ kindIds .resource (opIssues s op) ∧
    (run s op).studyGroups.map StudyGroup.id
      = s.studyGroups.map StudyGroup.id ++ kindIds .group (opIssues s op) ∧
    (run s op).studySessions.map StudySession.id
      = s.studySessions.map StudySession.id ++ kindIds .session (opIssues s op) ∧
    (run s op).activities.map Activity.id
      = s.activities.map Activity.id ++ kindIds .activity (opIssues s op) := by
  obtain ⟨h1, h2, h3, h4, h5, h6, h7, h8, h9⟩ := h
  cases op with
  | createUser inp now =>
      have hfresh : ∀ x ∈ s.users, User.id x ≠ s.currentUserId :=
        fun x hx => Nat.ne_of_lt (h1 x hx)
      refine ⟨?_, ?_, ?_, ?_, ?_, ?_, ?_, ?_⟩ <;>
        simp [run, createUser, opIssues, kindIds, mapSet_fresh _ _ _ _ hfresh]
  | updateUser id d =>
      simp only [run, updateUser]
      cases hg : getUser s id with
      | none => simp [opIssues, kindIds]
      | some u =>
          have hany := mapGet_isSome_any _ _ _ _ hg
          have hid : User.id (applyUserUpdate u d) = id := by
            simpa [applyUserUpdate] using mapGet_id_eq _ _ _ _ hg
          refine ⟨?_, ?_, ?_, ?_, ?_, ?_, ?_, ?_⟩ <;>
            simp [opIssues, kindIds, map_gid_mapSet _ _ _ _ hid hany]
  | createPaper inp now =>
      have hfresh : ∀ x ∈ s.papers, Paper.id x ≠ s.currentPaperId :=
        fun x hx => Nat.ne_of_lt (h2 x hx)
      refine ⟨?_, ?_, ?_, ?_, ?_, ?_, ?_, ?_⟩ <;>
        simp [run, createPaper, opIssues, kindIds, mapSet_fresh _ _ _ _ hfresh]
  | incrementPaperDownloads id =>
      simp only [run, incrementPaperDownloads]
      cases hg : getPaper s id with
      | none => simp [opIssues, kindIds]
      | some p =>
          have hany := mapGet_isSome_any _ _ _ _ hg
          have hid0 := mapGet_id_eq _ _ _ _ hg
          have hid :
              Paper.id { p with downloads := p.downloads + 1 } = id := hid0
          refine ⟨?_, ?_, ?_, ?_, ?_, ?_, ?_, ?_⟩ <;>
            simp [opIssues, kindIds, map_gid_mapSet _ _ _ _ hid hany]
  | createDiscussionPost inp now =>
      have hfresh :
          ∀ x ∈ s.discussionPosts,
            DiscussionPost.id x ≠ s.currentDiscussionPostId :=
        fun x hx => Nat.ne_of_lt (h3 x hx)
      refine ⟨?_, ?_, ?_, ?_, ?_, ?_, ?_, ?_⟩ <;>
        simp [run, createDiscussionPost, opIssues, kindIds,
          mapSet_fresh _ _ _ _ hfresh]
  | createDiscussionReply inp now =>
      have hfresh :
          ∀ x ∈ s.discussionReplies,
            DiscussionReply.id x ≠ s.currentDiscussionReplyId :=
        fun x hx => Nat.ne_of_lt (h4 x hx)
      refine ⟨?_, ?_, ?_, ?_, ?_, ?_, ?_, ?_⟩ <;>
        simp [run, createDiscussionReply, opIssues, kindIds,
          mapSet_fresh _ _ _ _ hfresh]
  | voteDiscussionPost id v =>
      simp only [run, voteDiscussionPost]
      cases hg : getDiscussionPost s id with
      | none => simp [opIssues, kindIds]
      | some p =>
          have hany := mapGet_isSome_any _ _ _ _ hg
          have hid0 := mapGet_id_eq _ _ _ _ hg
          have hid :
              DiscussionPost.id { p with votes := p.votes + v } = id := hid0
          refine ⟨?_, ?_, ?_, ?_, ?_, ?_, ?_, ?_⟩ <;>
            simp [opIssues, kindIds, map_gid_mapSet _ _ _ _ hid hany]
  | voteDiscussionReply id v =>
      simp only [run, voteDiscussionReply]
      cases hg : mapGet DiscussionReply.id s.discussionReplies id with
      | none => simp [opIssues, kindIds]
      | some r =>
          have hany := mapGet_isSome_any _ _ _ _ hg
          have hid0 := mapGet_id_eq _ _ _ _ hg
          have hid :
              DiscussionReply.id { r with votes := r.votes + v } = id := hid0
          refine ⟨?_, ?_, ?_, ?_, ?_, ?_, ?_, ?_⟩ <;>
            simp [opIssues, kindIds, map_gid_mapSet _ _ _ _ hid hany]
  | createResource inp now =>
      have hfresh : ∀ x ∈ s.resources, Resource.id x ≠ s.currentResourceId :=
        fun x hx => Nat.ne_of_lt (h5 x hx)
      refine ⟨?_, ?_, ?_, ?_, ?_, ?_, ?_, ?_⟩ <;>
        simp [run, createResource, opIssues, kindIds,
          mapSet_fresh _ _ _ _ hfresh]
  | incrementResourceDownloads id =>
      simp only [run, incrementResourceDownloads]
      cases hg : getResource s id with
      | none => simp [opIssues, kindIds]
      | some r =>
          have hany := mapGet_isSome_any _ _ _ _ hg
          have hid0 := mapGet_id_eq _ _ _ _ hg
          have hid :
              Resource.id { r with downloads := r.downloads + 1 } = id := hid0
          refine ⟨?_, ?_, ?_, ?_, ?_, ?_, ?_, ?_⟩ <;>
            simp [opIssues, kindIds, map_gid_mapSet _ _ _ _ hid hany]
  | rateResource id rt =>
      simp only [run, rateResource]
      cases hg : getResource s id with
      | none => simp [opIssues, kindIds]
      | some r =>
          have hany := mapGet_isSome_any _ _ _ _ hg
          have hid0 := mapGet_id_eq _ _ _ _ hg
          have hid : Resource.id { r with rating := rt } = id := hid0
          refine ⟨?_, ?_, ?_, ?_, ?_, ?_, ?_, ?_⟩ <;>
            simp [opIssues, kindIds, map_gid_mapSet _ _ _ _ hid hany]
  | createStudyGroup inp now =>
      have hfresh :
          ∀ x ∈ s.studyGroups, StudyGroup.id x ≠ s.currentStudyGroupId :=
        fun x hx => Nat.ne_of_lt (h6 x hx)
      refine ⟨?_, ?_, ?_, ?_, ?_, ?_, ?_, ?_⟩ <;>
        simp [run, createStudyGroup, opIssues, kindIds,
          mapSet_fresh _ _ _ _ hfresh]
  | addStudyGroupMember inp now =>
      refine ⟨?_, ?_, ?_, ?_, ?_, ?_, ?_, ?_⟩ <;>
        simp [run, addStudyGroupMember, opIssues, kindIds]
  | removeStudyGroupMember g u =>
      simp only [run, removeStudyGroupMember]
      split <;> simp [opIssues, kindIds]
  | createStudySession inp now =>
      have hfresh :
          ∀ x ∈ s.studySessions, StudySession.id x ≠ s.currentStudySessionId :=
        fun x hx => Nat.ne_of_lt (h8 x hx)
      refine ⟨?_, ?_, ?_, ?_, ?_, ?_, ?_, ?_⟩ <;>
        simp [run, createStudySession, opIssues, kindIds,
          mapSet_fresh _ _ _ _ hfresh]
  | createActivity inp now =>
      have hfresh : ∀ x ∈ s.activities, Activity.id x ≠ s.currentActivityId :=
        fun x hx => Nat.ne_of_lt (h9 x hx)
      refine ⟨?_, ?_, ?_, ?_, ?_, ?_, ?_, ?_⟩ <;>
        simp [run, createActivity, opIssues, kindIds,
          mapSet_fresh _ _ _ _ hfresh]

/-- Along any trace, every (never-deleted) collection holds exactly the ids
issued for its type, in issue order. -/
theorem ids_runAll (s : MemStorage) (tr : List Op) (h : WF s) :
    (runAll s tr).users.map User.id
      = s.users.map User.id ++ kindIds .user (issued s tr) ∧
    (runAll s tr).papers.map Paper.id
      = s.papers.map Paper.id ++ kindIds .paper (issued s tr) ∧
    (runAll s tr).discussionPosts.map DiscussionPost.id
      = s.discussionPosts.map DiscussionPost.id ++ kindIds .post (issued s tr) ∧
    (runAll s tr).discussionReplies.map DiscussionReply.id
      = s.discussionReplies.map DiscussionReply.id
          ++ kindIds .reply (issued s tr) ∧
    (runAll s tr).resources.map Resource.id
      = s.resources.map Resource.id ++ kindIds .resource (issued s tr) ∧
    (runAll s tr).studyGroups.map StudyGroup.id
      = s.studyGroups.map StudyGroup.id ++ kindIds .group (issued s tr) ∧
    (runAll s tr).studySessions.map StudySession.id
      = s.studySessions.map StudySession.id ++ kindIds .session (issued s tr) ∧
    (runAll s tr).activities.map Activity.id
      = s.activities.map Activity.id ++ kindIds .activity (issued s tr) := by
  induction tr generalizing s with
  | nil => simp [runAll, issued, kindIds]
  | cons op tr ih =>
      have step := run_ids s op h
      have ihh := ih (run s op) (wf_run s op h)
      simp only [runAll, issued, kindIds_append]
      exact ⟨by rw [ihh.1, step.1, List.append_assoc],
             by rw [ihh.2.1, step.2.1, List.append_assoc],
             by rw [ihh.2.2.1, step.2.2.1, List.append_assoc],
             by rw [ihh.2.2.2.1, step.2.2.2.1, List.append_assoc],
             by rw [ihh.2.2.2.2.1, step.2.2.2.2.1, List.append_assoc],
             by rw [ihh.2.2.2.2.2.1, step.2.2.2.2.2.1, List.append_assoc],
             by rw [ihh.2.2.2.2.2.2.1, step.2.2.2.2.2.2.1, List.append_assoc],
             by rw [ihh.2.2.2.2.2.2.2, step.2.2.2.2.2.2.2, List.append_assoc]⟩

/-! ## Filter characterizations -/

theorem optCheck_all {α β : Type} (o : Option β) (k : β → α → Bool) (x : α) :
    ((optCheck o k).all (fun c => c x) = true) ↔
      (∀ v, o = some v → k v x = true) := by
  cases o <;> simp [optCheck]

theorem optFilter_forall {β F : Type} (o : Option β) (mk : β → F)
    (Q : F → Prop) :
    (∀ g ∈ optFilter o mk, Q g) ↔ (∀ v, o = some v → Q (mk v)) := by
  cases o <;> simp [optFilter]

theorem matchesPaper_spec (f : PaperFilter) (p : Paper) :
    matchesPaper f p = true ↔ MatchesPaperSpec f p := by
  unfold matchesPaper paperChecks MatchesPaperSpec
  simp only [List.all_append, Bool.and_eq_true, optCheck_all, beq_iff_eq]
  tauto

theorem matchesPaper_singles (f : PaperFilter) (p : Paper) :
    matchesPaper f p = true ↔
      ∀ g ∈ paperSingles f, matchesPaper g p = true := by
  rw [matchesPaper_spec]
  simp only [paperSingles, List.forall_mem_append, optFilter_forall,
    matchesPaper_spec]
  simp [MatchesPaperSpec]
  tauto

theorem matchesPost_spec (f : PostFilter) (p : DiscussionPost) :
    matchesPost f p = true ↔ MatchesPostSpec f p := by
  unfold matchesPost postChecks MatchesPostSpec
  simp only [List.all_append, Bool.and_eq_true, optCheck_all, beq_iff_eq]
  tauto

theorem matchesPost_singles (f : PostFilter) (p : DiscussionPost) :
    matchesPost f p = true ↔
      ∀ g ∈ postSingles f, matchesPost g p = true := by
  rw [matchesPost_spec]
  simp only [postSingles, List.forall_mem_append, optFilter_forall,
    matchesPost_spec]
  simp [MatchesPostSpec]
  tauto

theorem matchesGroup_spec (f : GroupFilter) (g : StudyGroup) :
    matchesGroup f g = true ↔ MatchesGroupSpec f g := by
  unfold matchesGroup groupChecks MatchesGroupSpec
  simp only [List.all_append, Bool.and_eq_true, optCheck_all, beq_iff_eq]
  tauto

theorem matchesGroup_singles (f : GroupFilter) (g : StudyGroup) :
    matchesGroup f g = true ↔
      ∀ g0 ∈ groupSingles f, matchesGroup g0 g = true := by
  rw [matchesGroup_spec]
  simp only [groupSingles, List.forall_mem_append, optFilter_forall,
    matchesGroup_spec]
  simp [MatchesGroupSpec]
  tauto

theorem matchesResource_spec (f : ResourceFilter) (r : Resource) :
    matchesResource f r = true ↔ MatchesResourceSpec f r := by
  unfold matchesResource resourceChecks MatchesResourceSpec
  simp only [List.all_append, Bool.and_eq_true, optCheck_all, beq_iff_eq]
  tauto

theorem matchesResource_singles (f : ResourceFilter) (r : Resource) :
    matchesResource f r = true ↔
      ∀ g ∈ resourceSingles f, matchesResource g r = true := by
  rw [matchesResource_spec]
  simp only [resourceSingles, List.forall_mem_append, optFilter_forall,
    matchesResource_spec]
  simp [MatchesResourceSpec]
  tauto

/-! ## Operation-level helper lemmas -/

theorem get_none_of_not_mem_ids {α : Type} (gid : α → Nat) (l : List α)
    (id : Nat) (h : id ∉ l.map gid) : mapGet gid l id = none :=
  mapGet_eq_none gid l id
    (fun _ hx hh => h (hh ▸ List.mem_map_of_mem gid hx))

theorem votePost_get (s : MemStorage) (id : Nat) (q : DiscussionPost)
    (v : Int) (h : getDiscussionPost s id = some q) :
    getDiscussionPost (voteDiscussionPost s id v).2 id
      = some { q with votes := q.votes + v } := by
  have hid0 := mapGet_id_eq _ _ _ _ h
  have hid : DiscussionPost.id { q with votes := q.votes + v } = id := hid0
  simp only [voteDiscussionPost, h]
  exact mapGet_mapSet_self _ _ _ _ _ h hid

theorem incPaper_get (s : MemStorage) (id : Nat) (q : Paper)
    (h : getPaper s id = some q) :
    (incrementPaperDownloads s id).1
        = some { q with downloads := q.downloads + 1 } ∧
    getPaper (incrementPaperDownloads s id).2 id
      = some { q with downloads := q.downloads + 1 } := by
  have hid0 := mapGet_id_eq _ _ _ _ h
  have hid : Paper.id { q with downloads := q.downloads + 1 } = id := hid0
  constructor
  · simp [incrementPaperDownloads, h]
  · simp only [incrementPaperDownloads, h]
    exact mapGet_mapSet_self _ _ _ _ _ h hid

theorem createUser_get (s : MemStorage) (inp : InsertUser) (now : Nat)
    (h : WF s) :
    getUser (createUser s inp now).2 (createUser s inp now).1.id
      = some (createUser s inp now).1 := by
  have hfresh : ∀ x ∈ s.users, User.id x ≠ s.currentUserId :=
    fun x hx => Nat.ne_of_lt (h.1 x hx)
  show mapGet User.id (mapSet User.id s.users s.currentUserId _) _ = _
  rw [mapSet_fresh _ _ _ _ hfresh]
  exact mapGet_append_fresh _ _ _ _ hfresh rfl

theorem createPaper_get (s : MemStorage) (inp : InsertPaper) (now : Nat)
    (h : WF s) :
    getPaper (createPaper s inp now).2 (createPaper s inp now).1.id
      = some (createPaper s inp now).1 := by
  have hfresh : ∀ x ∈ s.papers, Paper.id x ≠ s.currentPaperId :=
    fun x hx => Nat.ne_of_lt (h.2.1 x hx)
  show mapGet Paper.id (mapSet Paper.id s.papers s.currentPaperId _) _ = _
  rw [mapSet_fresh _ _ _ _ hfresh]
  exact mapGet_append_fresh _ _ _ _ hfresh rfl

theorem createPost_get (s : MemStorage) (inp : InsertDiscussionPost)
    (now : Nat) (h : WF s) :
    getDiscussionPost (createDiscussionPost s inp now).2
        (createDiscussionPost s inp now).1.id
      = some (createDiscussionPost s inp now).1 := by
  have hfresh :
      ∀ x ∈ s.discussionPosts,
        DiscussionPost.id x ≠ s.currentDiscussionPostId :=
    fun x hx => Nat.ne_of_lt (h.2.2.1 x hx)
  show mapGet DiscussionPost.id
    (mapSet DiscussionPost.id s.discussionPosts s.currentDiscussionPostId _) _ = _
  rw [mapSet_fresh _ _ _ _ hfresh]
  exact mapGet_append_fresh _ _ _ _ hfresh rfl

theorem createResource_get (s : MemStorage) (inp : InsertResource)
    (now : Nat) (h : WF s) :
    getResource (createResource s inp now).2 (createResource s inp now).1.id
      = some (createResource s inp now).1 := by
  have hfresh : ∀ x ∈ s.resources, Resource.id x ≠ s.currentResourceId :=
    fun x hx => Nat.ne_of_lt (h.2.2.2.2.1 x hx)
  show mapGet Resource.id
    (mapSet Resource.id s.resources s.currentResourceId _) _ = _
  rw [mapSet_fresh _ _ _ _ hfresh]
  exact mapGet_append_fresh _ _ _ _ hfresh rfl

theorem createGroup_get (s : MemStorage) (inp : InsertStudyGroup)
    (now : Nat) (h : WF s) :
    getStudyGroup (createStudyGroup s inp now).2
        (createStudyGroup s inp now).1.id
      = some (createStudyGroup s inp now).1 := by
  have hfresh : ∀ x ∈ s.studyGroups, StudyGroup.id x ≠ s.currentStudyGroupId :=
    fun x hx => Nat.ne_of_lt (h.2.2.2.2.2.1 x hx)
  show mapGet StudyGroup.id
    (mapSet StudyGroup.id s.studyGroups s.currentStudyGroupId _) _ = _
  rw [mapSet_fresh _ _ _ _ hfresh]
  exact mapGet_append_fresh _ _ _ _ hfresh rfl

theorem createSession_get (s : MemStorage) (inp : InsertStudySession)
    (now : Nat) (h : WF s) :
    getStudySession (createStudySession s inp now).2
        (createStudySession s inp now).1.id
      = some (createStudySession s inp now).1 := by
  have hfresh :
      ∀ x ∈ s.studySessions, StudySession.id x ≠ s.currentStudySessionId :=
    fun x hx => Nat.ne_of_lt (h.2.2.2.2.2.2.2.1 x hx)
  show mapGet StudySession.id
    (mapSet StudySession.id s.studySessions s.currentStudySessionId _) _ = _
  rw [mapSet_fresh _ _ _ _ hfresh]
  exact mapGet_append_fresh _ _ _ _ hfresh rfl

/-! ## Claims -/

/-- C2: for every trace of store operations, the id issued by a create
operation run next is strictly greater than every id previously issued for
the same entity type — so ids grow strictly and are never reused, deletions
included (no operation ever lowers a counter). -/
theorem c2_create_ids_monotone (tr : List Op) (op : Op) (k : Kind) (i j : Nat)
    (hi : (k, i) ∈ issued init tr)
    (hj : (k, j) ∈ opIssues (runAll init tr) op) : i < j := by
  have h1 := issued_lt init tr k i hi
  have h2 := (opIssues_mem (runAll init tr) op k j hj).1
  omega

theorem c2_create_ids_monotone_witness :
    (Kind.paper, 2) ∈ issued init
        [Op.createPaper sampleInsertPaper 0, Op.createPaper sampleInsertPaper 0] ∧
    (Kind.paper, 3) ∈ opIssues
        (runAll init
          [Op.createPaper sampleInsertPaper 0, Op.createPaper sampleInsertPaper 0])
        (Op.createPaper sampleInsertPaper 4) ∧
    2 < 3 := by
  have h1 : (Kind.paper, 2) ∈ issued init
      [Op.createPaper sampleInsertPaper 0, Op.createPaper sampleInsertPaper 0] := by
    decide
  have h2 : (Kind.paper, 3) ∈ opIssues
      (runAll init
        [Op.createPaper sampleInsertPaper 0, Op.createPaper sampleInsertPaper 0])
      (Op.createPaper sampleInsertPaper 4) := by
    decide
  exact ⟨h1, h2, c2_create_ids_monotone _ _ _ 2 3 h1 h2⟩

/-- C4 counterexample: `createStudySession` stores no creation timestamp —
its result (returned session and new state alike) is identical whatever the
wall clock reads at creation time, here 5 versus 99, so no field of the
stored session records the creation time.  Every other create does stamp a
timestamp (see the amended theorem). -/
theorem c4_session_timestamp_counterexample :
    createStudySession init sampleInsertSession 5
      = createStudySession init sampleInsertSession 99 ∧ (5 : Nat) ≠ 99 :=
  ⟨rfl, by decide⟩

/-- C4 amended: every create assigns the fresh identifier, and every create
except `createStudySession` also stamps a store-assigned creation timestamp
(`createdAt`, `uploadDate` or `joinedAt`); `createStudySession` assigns only
the id and ignores the clock entirely. -/
theorem c4_create_timestamps_amended (s : MemStorage) (now : Nat) :
    (∀ inp, (createUser s inp now).1.createdAt = now ∧
      (createUser s inp now).1.id = s.currentUserId) ∧
    (∀ inp, (createPaper s inp now).1.uploadDate = now ∧
      (createPaper s inp now).1.id = s.currentPaperId) ∧
    (∀ inp, (createDiscussionPost s inp now).1.createdAt = now ∧
      (createDiscussionPost s inp now).1.id = s.currentDiscussionPostId) ∧
    (∀ inp, (createDiscussionReply s inp now).1.createdAt = now ∧
      (createDiscussionReply s inp now).1.id = s.currentDiscussionReplyId) ∧
    (∀ inp, (createResource s inp now).1.uploadDate = now ∧
      (createResource s inp now).1.id = s.currentResourceId) ∧
    (∀ inp, (createStudyGroup s inp now).1.createdAt = now ∧
      (createStudyGroup s inp now).1.id = s.currentStudyGroupId) ∧
    (∀ inp, (addStudyGroupMember s inp now).1.joinedAt = now ∧
      (addStudyGroupMember s inp now).1.id = s.currentStudyGroupMemberId) ∧
    (∀ inp, (createActivity s inp now).1.createdAt = now ∧
      (createActivity s inp now).1.id = s.currentActivityId) ∧
    (∀ inp now2,
      createStudySession s inp now = createStudySession s inp now2 ∧
      (createStudySession s inp now).1.id = s.currentStudySessionId) :=
  ⟨fun _ => ⟨rfl, rfl⟩, fun _ => ⟨rfl, rfl⟩, fun _ => ⟨rfl, rfl⟩,
   fun _ => ⟨rfl, rfl⟩, fun _ => ⟨rfl, rfl⟩, fun _ => ⟨rfl, rfl⟩,
   fun _ => ⟨rfl, rfl⟩, fun _ => ⟨rfl, rfl⟩, fun _ _ => ⟨rfl, rfl⟩⟩

/-- C8: on an existing discussion post, any vote delta is added to the
stored count unchecked (so the count can go negative), and voting +1 then
-1 — in either order — restores the post, votes included, to exactly its
original stored value. -/
theorem c8_vote_roundtrip (s : MemStorage) (id : Nat) (p : DiscussionPost)
    (hp : getDiscussionPost s id = some p) :
    (∀ v : Int, (voteDiscussionPost s id v).1
        = some { p with votes := p.votes + v }) ∧
    getDiscussionPost
        (voteDiscussionPost (voteDiscussionPost s id 1).2 id (-1)).2 id
      = some p ∧
    getDiscussionPost
        (voteDiscussionPost (voteDiscussionPost s id (-1)).2 id 1).2 id
      = some p := by
  refine ⟨fun v => by simp [voteDiscussionPost, hp], ?_, ?_⟩
  · have r1 := votePost_get s id p 1 hp
    have r2 := votePost_get _ id _ (-1) r1
    have hv : p.votes + 1 + (-1) = p.votes := by omega
    simpa [hv] using r2
  · have r1 := votePost_get s id p (-1) hp
    have r2 := votePost_get _ id _ 1 r1
    have hv : p.votes + (-1) + 1 = p.votes := by omega
    simpa [hv] using r2

theorem c8_vote_roundtrip_witness :
    getDiscussionPost (createDiscussionPost init sampleInsertPost 3).2 1
        = some (createDiscussionPost init sampleInsertPost 3).1 ∧
    (voteDiscussionPost (createDiscussionPost init sampleInsertPost 3).2 1
        (-1)).1
      = some { (createDiscussionPost init sampleInsertPost 3).1 with
                 votes := -1 } ∧
    getDiscussionPost
        (voteDiscussionPost
          (voteDiscussionPost (createDiscussionPost init sampleInsertPost 3).2
            1 1).2 1 (-1)).2 1
      = some (createDiscussionPost init sampleInsertPost 3).1 := by
  have hp : getDiscussionPost (createDiscussionPost init sampleInsertPost 3).2 1
      = some (createDiscussionPost init sampleInsertPost 3).1 := by decide
  have h := c8_vote_roundtrip
    (createDiscussionPost init sampleInsertPost 3).2 1
    (createDiscussionPost init sampleInsertPost 3).1 hp
  exact ⟨hp, h.1 (-1), h.2.1⟩

/-- C7: incrementing downloads of a nonexistent paper id returns the absent
value and leaves the whole store unchanged; on an existing paper each call
returns and stores the paper with downloads exactly one higher; and after
creating a paper (downloads start at 0) and incrementing its id `n` times,
the stored downloads field equals `n`. -/
theorem c7_increment_downloads :
    (∀ (s : MemStorage) (id : Nat), getPaper s id = none →
      incrementPaperDownloads s id = (none, s)) ∧
    (∀ (s : MemStorage) (id : Nat) (p : Paper), getPaper s id = some p →
      (incrementPaperDownloads s id).1
          = some { p with downloads := p.downloads + 1 } ∧
      getPaper (incrementPaperDownloads s id).2 id
          = some { p with downloads := p.downloads + 1 }) ∧
    (∀ (s : MemStorage) (inp : InsertPaper) (now n : Nat), WF s →
      getPaper
          (iterIncPaper (createPaper s inp now).2
            (createPaper s inp now).1.id n)
          (createPaper s inp now).1.id
        = some { (createPaper s inp now).1 with downloads := n }) := by
  refine ⟨fun s id h => by simp [incrementPaperDownloads, h],
          fun s id p h => incPaper_get s id p h, ?_⟩
  intro s inp now n h
  induction n with
  | zero => exact createPaper_get s inp now h
  | succ n ih =>
      have step := (incPaper_get _ _ _ ih).2
      simpa using step

theorem c7_increment_downloads_witness :
    WF init ∧
    getPaper
        (iterIncPaper (createPaper init sampleInsertPaper 7).2
          (createPaper init sampleInsertPaper 7).1.id 3)
        (createPaper init sampleInsertPaper 7).1.id
      = some { (createPaper init sampleInsertPaper 7).1 with downloads := 3 } ∧
    getPaper init 5 = none ∧
    incrementPaperDownloads init 5 = (none, init) := by
  have hwf : WF init := wf_init
  have hnone : getPaper init 5 = none := by decide
  exact ⟨hwf, c7_increment_downloads.2.2 init sampleInsertPaper 7 3 hwf,
         hnone, c7_increment_downloads.1 init 5 hnone⟩

/-- C9: for every entity type with a getById operation, reading back the id
of a just-created entity returns exactly what create returned; and along any
trace, reading an id that was never issued for that type returns the absent
value (rather than throwing — the operations are total). -/
theorem c9_get_by_id :
    (∀ s : MemStorage, WF s →
      (∀ inp now, getUser (createUser s inp now).2 (createUser s inp now).1.id
          = some (createUser s inp now).1) ∧
      (∀ inp now, getPaper (createPaper s inp now).2
            (createPaper s inp now).1.id
          = some (createPaper s inp now).1) ∧
      (∀ inp now, getDiscussionPost (createDiscussionPost s inp now).2
            (createDiscussionPost s inp now).1.id
          = some (createDiscussionPost s inp now).1) ∧
      (∀ inp now, getResource (createResource s inp now).2
            (createResource s inp now).1.id
          = some (createResource s inp now).1) ∧
      (∀ inp now, getStudyGroup (createStudyGroup s inp now).2
            (createStudyGroup s inp now).1.id
          = some (createStudyGroup s inp now).1) ∧
      (∀ inp now, getStudySession (createStudySession s inp now).2
            (createStudySession s inp now).1.id
          = some (createStudySession s inp now).1)) ∧
    (∀ (tr : List Op) (id : Nat),
      (id ∉ kindIds .user (issued init tr) →
        getUser (runAll init tr) id = none) ∧
      (id ∉ kindIds .paper (issued init tr) →
        getPaper (runAll init tr) id = none) ∧
      (id ∉ kindIds .post (issued init tr) →
        getDiscussionPost (runAll init tr) id = none) ∧
      (id ∉ kindIds .resource (issued init tr) →
        getResource (runAll init tr) id = none) ∧
      (id ∉ kindIds .group (issued init tr) →
        getStudyGroup (runAll init tr) id = none) ∧
      (id ∉ kindIds .session (issued init tr) →
        getStudySession (runAll init tr) id = none)) := by
  constructor
  · intro s h
    exact ⟨fun inp now => createUser_get s inp now h,
           fun inp now => createPaper_get s inp now h,
           fun inp now => createPost_get s inp now h,
           fun inp now => createResource_get s inp now h,
           fun inp now => createGroup_get s inp now h,
           fun inp now => createSession_get s inp now h⟩
  · intro tr id
    have hids := ids_runAll init tr wf_init
    refine ⟨fun h => ?_, fun h => ?_, fun h => ?_, fun h => ?_,
            fun h => ?_, fun h => ?_⟩
    · exact get_none_of_not_mem_ids _ _ _ (by
        rw [hids.1]; simpa [init] using h)
    · exact get_none_of_not_mem_ids _ _ _ (by
        rw [hids.2.1]; simpa [init] using h)
    · exact get_none_of_not_mem_ids _ _ _ (by
        rw [hids.2.2.1]; simpa [init] using h)
    · exact get_none_of_not_mem_ids _ _ _ (by
        rw [hids.2.2.2.2.1]; simpa [init] using h)
    · exact get_none_of_not_mem_ids _ _ _ (by
        rw [hids.2.2.2.2.2.1]; simpa [init] using h)
    · exact get_none_of_not_mem_ids _ _ _ (by
        rw [hids.2.2.2.2.2.2.1]; simpa [init] using h)

theorem c9_get_by_id_witness :
    WF init ∧
    getPaper (createPaper init sampleInsertPaper 7).2
        (createPaper init sampleInsertPaper 7).1.id
      = some (createPaper init sampleInsertPaper 7).1 ∧
    (5 : Nat) ∉ kindIds .paper
        (issued init [Op.createPaper sampleInsertPaper 0]) ∧
    getPaper (runAll init [Op.createPaper sampleInsertPaper 0]) 5 = none := by
  have hwf : WF init := wf_init
  have hnm : (5 : Nat) ∉ kindIds .paper
      (issued init [Op.createPaper sampleInsertPaper 0]) := by decide
  exact ⟨hwf, (c9_get_by_id.1 init hwf).2.1 sampleInsertPaper 7, hnm,
         (c9_get_by_id.2 [Op.createPaper sampleInsertPaper 0] 5).2.1 hnm⟩

/-- C5: upcoming study sessions for a user are exactly (as a multiset) the
stored sessions belonging to a group the user is a member of whose start
time is strictly in the future, and the returned list is sorted ascending
by start time. -/
theorem c5_upcoming_sessions (s : MemStorage) (userId now : Nat) :
    (getUpcomingStudySessions s userId now).Perm
      (s.studySessions.filter (fun x =>
        ((s.studyGroupMembers.filter (fun m => m.userId == userId)).map
            (fun m => m.groupId)).contains x.groupId
          && decide (now < x.startTime))) ∧
    (∀ x, x ∈ getUpcomingStudySessions s userId now ↔
      (x ∈ s.studySessions ∧
        (∃ m ∈ s.studyGroupMembers,
          m.userId = userId ∧ m.groupId = x.groupId) ∧
        now < x.startTime)) ∧
    (getUpcomingStudySessions s userId now).Pairwise
      (fun a b => a.startTime ≤ b.startTime) := by
  refine ⟨List.mergeSort_perm _ _, ?_, ?_⟩
  · intro x
    simp only [getUpcomingStudySessions, List.mem_mergeSort, List.mem_filter,
      Bool.and_eq_true, decide_eq_true_eq, List.contains, List.elem_eq_mem,
      List.mem_map, List.mem_filter, beq_iff_eq]
    constructor
    · rintro ⟨hx, ⟨m, ⟨hm, hmu⟩, hmg⟩, ht⟩
      exact ⟨hx, ⟨m, hm, hmu, hmg⟩, ht⟩
    · rintro ⟨hx, ⟨m, hm, hmu, hmg⟩, ht⟩
      exact ⟨hx, ⟨m, ⟨hm, hmu⟩, hmg⟩, ht⟩
  · have h := @List.sorted_mergeSort StudySession
      (fun a b => decide (a.startTime ≤ b.startTime))
      (fun a b c hab hbc => by
        simp only [decide_eq_true_eq] at *; omega)
      (fun a b => by
        simp only [Bool.or_eq_true, decide_eq_true_eq]; omega)
      (s.studySessions.filter (fun x =>
        ((s.studyGroupMembers.filter (fun m => m.userId == userId)).map
            (fun m => m.groupId)).contains x.groupId
          && decide (now < x.startTime)))
    exact h.imp (fun hab => by simpa using hab)

/-- C1: with no filter, each list operation returns exactly the entities
created so far for its type, in creation order (stated via the stored id
sequence, which lists one entry per created entity in issue order); with a
filter, it returns exactly the stored entities for which every field named
in the filter is strictly equal to the filter value, and a multi-field
filter selects exactly the intersection of its single-field filters. -/
theorem c1_list_filter_semantics :
    (∀ tr : List Op,
      (getPapers (runAll init tr) none).map Paper.id
        = kindIds .paper (issued init tr) ∧
      (getDiscussionPosts (runAll init tr) none).map DiscussionPost.id
        = kindIds .post (issued init tr) ∧
      (getStudyGroups (runAll init tr) none).map StudyGroup.id
        = kindIds .group (issued init tr) ∧
      (getResources (runAll init tr) none).map Resource.id
        = kindIds .resource (issued init tr)) ∧
    (∀ (s : MemStorage) (f : PaperFilter) (p : Paper),
      (p ∈ getPapers s (some f) ↔
        p ∈ getPapers s none ∧ MatchesPaperSpec f p) ∧
      (p ∈ getPapers s none →
        (p ∈ getPapers s (some f) ↔
          ∀ g ∈ paperSingles f, p ∈ getPapers s (some g)))) ∧
    (∀ (s : MemStorage) (f : PostFilter) (p : DiscussionPost),
      (p ∈ getDiscussionPosts s (some f) ↔
        p ∈ getDiscussionPosts s none ∧ MatchesPostSpec f p) ∧
      (p ∈ getDiscussionPosts s none →
        (p ∈ getDiscussionPosts s (some f) ↔
          ∀ g ∈ postSingles f, p ∈ getDiscussionPosts s (some g)))) ∧
    (∀ (s : MemStorage) (f : GroupFilter) (g : StudyGroup),
      (g ∈ getStudyGroups s (some f) ↔
        g ∈ getStudyGroups s none ∧ MatchesGroupSpec f g) ∧
      (g ∈ getStudyGroups s none →
        (g ∈ getStudyGroups s (some f) ↔
          ∀ g0 ∈ groupSingles f, g ∈ getStudyGroups s (some g0)))) ∧
    (∀ (s : MemStorage) (f : ResourceFilter) (r : Resource),
      (r ∈ getResources s (some f) ↔
        r ∈ getResources s none ∧ MatchesResourceSpec f r) ∧
      (r ∈ getResources s none →
        (r ∈ getResources s (some f) ↔
          ∀ g ∈ resourceSingles f, r ∈ getResources s (some g)))) := by
  refine ⟨?_, ?_, ?_, ?_, ?_⟩
  · intro tr
    have hids := ids_runAll init tr wf_init
    exact ⟨by simpa [init, getPapers] using hids.2.1,
           by simpa [init, getDiscussionPosts] using hids.2.2.1,
           by simpa [init, getStudyGroups] using hids.2.2.2.2.2.1,
           by simpa [init, getResources] using hids.2.2.2.2.1⟩
  · intro s f p
    have base : ∀ g : PaperFilter,
        (p ∈ getPapers s (some g) ↔ p ∈ s.papers ∧ matchesPaper g p = true) :=
      fun g => List.mem_filter
    constructor
    · rw [base f, matchesPaper_spec]
      exact Iff.rfl
    · intro hp
      have hp' : p ∈ s.papers := hp
      rw [base f, matchesPaper_singles]
      constructor
      · rintro ⟨-, hall⟩ g hg
        exact (base g).2 ⟨hp', hall g hg⟩
      · intro hall
        exact ⟨hp', fun g hg => ((base g).1 (hall g hg)).2⟩
  · intro s f p
    have base : ∀ g : PostFilter,
        (p ∈ getDiscussionPosts s (some g) ↔
          p ∈ s.discussionPosts ∧ matchesPost g p = true) :=
      fun g => List.mem_filter
    constructor
    · rw [base f, matchesPost_spec]
      exact Iff.rfl
    · intro hp
      have hp' : p ∈ s.discussionPosts := hp
      rw [base f, matchesPost_singles]
      constructor
      · rintro ⟨-, hall⟩ g hg
        exact (base g).2 ⟨hp', hall g hg⟩
      · intro hall
        exact ⟨hp', fun g hg => ((base g).1 (hall g hg)).2⟩
  · intro s f g
    have base : ∀ g0 : GroupFilter,
        (g ∈ getStudyGroups s (some g0) ↔
          g ∈ s.studyGroups ∧ matchesGroup g0 g = true) :=
      fun g0 => List.mem_filter
    constructor
    · rw [base f, matchesGroup_spec]
      exact Iff.rfl
    · intro hp
      have hp' : g ∈ s.studyGroups := hp
      rw [base f, matchesGroup_singles]
      constructor
      · rintro ⟨-, hall⟩ g0 hg
        exact (base g0).2 ⟨hp', hall g0 hg⟩
      · intro hall
        exact ⟨hp', fun g0 hg => ((base g0).1 (hall g0 hg)).2⟩
  · intro s f r
    have base : ∀ g : ResourceFilter,
        (r ∈ getResources s (some g) ↔
          r ∈ s.resources ∧ matchesResource g r = true) :=
      fun g => List.mem_filter
    constructor
    · rw [base f, matchesResource_spec]
      exact Iff.rfl
    · intro hp
      have hp' : r ∈ s.resources := hp
      rw [base f, matchesResource_singles]
      constructor
      · rintro ⟨-, hall⟩ g hg
        exact (base g).2 ⟨hp', hall g hg⟩
      · intro hall
        exact ⟨hp', fun g hg => ((base g).1 (hall g hg)).2⟩

theorem c1_list_filter_semantics_witness :
    (createPaper init sampleInsertPaper 7).1
        ∈ getPapers (createPaper init sampleInsertPaper 7).2 none ∧
    ((createPaper init sampleInsertPaper 7).1
        ∈ getPapers (createPaper init sampleInsertPaper 7).2
            (some { course := some "c", year := some 2024 }) ↔
      ∀ g ∈ paperSingles { course := some "c", year := some 2024 },
        (createPaper init sampleInsertPaper 7).1
          ∈ getPapers (createPaper init sampleInsertPaper 7).2 (some g)) := by
  have hp : (createPaper init sampleInsertPaper 7).1
      ∈ getPapers (createPaper init sampleInsertPaper 7).2 none := by decide
  exact ⟨hp,
    (c1_list_filter_semantics.2.1 (createPaper init sampleInsertPaper 7).2
      { course := some "c", year := some 2024 }
      (createPaper init sampleInsertPaper 7).1).2 hp⟩

/-- C6: removing a (groupId, userId) membership returns false and leaves the
store untouched when no such row exists; when one exists (membership ids
being unique, as Map keys are) it returns true and the new state is the old
one with exactly one matching row removed — the first match — all other rows
kept in place. -/
theorem c6_remove_member (s : MemStorage) (groupId userId : Nat) :
    ((∀ m ∈ s.studyGroupMembers,
        ¬(m.groupId = groupId ∧ m.userId = userId)) →
      removeStudyGroupMember s groupId userId = (false, s)) ∧
    ((s.studyGroupMembers.map StudyGroupMember.id).Nodup →
      (∃ m ∈ s.studyGroupMembers,
        m.groupId = groupId ∧ m.userId = userId) →
      (removeStudyGroupMember s groupId userId).1 = true ∧
      ∃ l1 m0 l2,
        s.studyGroupMembers = l1 ++ m0 :: l2 ∧
        m0.groupId = groupId ∧ m0.userId = userId ∧
        (removeStudyGroupMember s groupId userId).2
          = { s with studyGroupMembers := l1 ++ l2 }) := by
  constructor
  · intro hno
    have hfind : s.studyGroupMembers.find?
        (fun m => m.groupId == groupId && m.userId == userId) = none := by
      apply List.find?_eq_none.2
      intro m hm
      simpa using hno m hm
    simp [removeStudyGroupMember, hfind]
  · intro hnd hex
    obtain ⟨m, hm, hg, hu⟩ := hex
    have hsome : (s.studyGroupMembers.find?
        (fun m => m.groupId == groupId && m.userId == userId)).isSome := by
      rw [List.find?_isSome]
      exact ⟨m, hm, by simp [hg, hu]⟩
    obtain ⟨m0, heq⟩ := Option.isSome_iff_exists.1 hsome
    obtain ⟨hp0, l1, l2, hl, -⟩ := List.find?_eq_some.1 heq
    have hg0 : m0.groupId = groupId ∧ m0.userId = userId := by
      simpa using hp0
    have hmem0 : m0 ∈ s.studyGroupMembers := List.mem_of_find?_eq_some heq
    have hany : s.studyGroupMembers.any
        (fun x => StudyGroupMember.id x == m0.id) = true :=
      List.any_eq_true.2 ⟨m0, hmem0, by simp⟩
    rw [hl] at hnd
    simp only [List.map_append, List.map_cons] at hnd
    rw [List.nodup_append] at hnd
    obtain ⟨-, hnd2, hdisj⟩ := hnd
    have h2 : m0.id ∉ l2.map StudyGroupMember.id := (List.nodup_cons.1 hnd2).1
    have h1 : m0.id ∉ l1.map StudyGroupMember.id := fun hmem =>
      hdisj hmem (List.mem_cons_self _ _)
    have hf1 : l1.filter (fun x => !(StudyGroupMember.id x == m0.id)) = l1 := by
      apply List.filter_eq_self.2
      intro x hx
      simp only [Bool.not_eq_true', beq_eq_false_iff_ne, ne_eq]
      intro hxe
      exact h1 (hxe ▸ List.mem_map_of_mem _ hx)
    have hf2 : l2.filter (fun x => !(StudyGroupMember.id x == m0.id)) = l2 := by
      apply List.filter_eq_self.2
      intro x hx
      simp only [Bool.not_eq_true', beq_eq_false_iff_ne, ne_eq]
      intro hxe
      exact h2 (hxe ▸ List.mem_map_of_mem _ hx)
    have hfilter : s.studyGroupMembers.filter
        (fun x => !(StudyGroupMember.id x == m0.id)) = l1 ++ l2 := by
      rw [hl, List.filter_append, List.filter_cons]
      simp [hf1, hf2]
    refine ⟨?_, l1, m0, l2, hl, hg0.1, hg0.2, ?_⟩
    · simp [removeStudyGroupMember, heq, mapDelete, hany]
    · simp only [removeStudyGroupMember, heq, mapDelete]
      rw [hfilter]

theorem c6_remove_member_witness :
    (dupMemberStore.studyGroupMembers.map StudyGroupMember.id).Nodup ∧
    (∃ m ∈ dupMemberStore.studyGroupMembers,
      m.groupId = 1 ∧ m.userId = 2) ∧
    (removeStudyGroupMember dupMemberStore 1 2).1 = true ∧
    removeStudyGroupMember dupMemberStore 9 9 = (false, dupMemberStore) := by
  have hnd : (dupMemberStore.studyGroupMembers.map StudyGroupMember.id).Nodup :=
    by decide
  have hex : ∃ m ∈ dupMemberStore.studyGroupMembers,
      m.groupId = 1 ∧ m.userId = 2 := by decide
  have hno : ∀ m ∈ dupMemberStore.studyGroupMembers,
      ¬(m.groupId = 9 ∧ m.userId = 9) := by decide
  exact ⟨hnd, hex, ((c6_remove_member dupMemberStore 1 2).2 hnd hex).1,
         (c6_remove_member dupMemberStore 9 9).1 hno⟩

/-- C10: the study groups of a user contain each group at most once even
when the membership table holds duplicate rows for the same (groupId,
userId) pair — the scan runs over the group collection, whose ids are
unique — and the result is exactly the set of groups some membership row of
the user points at. -/
theorem c10_user_groups_nodup (s : MemStorage) (userId : Nat) :
    ((s.studyGroups.map StudyGroup.id).Nodup →
      (getUserStudyGroups s userId).Nodup) ∧
    (∀ g, g ∈ getUserStudyGroups s userId ↔
      (g ∈ s.studyGroups ∧
        ∃ m ∈ s.studyGroupMembers, m.userId = userId ∧ m.groupId = g.id)) := by
  constructor
  · intro h
    exact (h.of_map).filter _
  · intro g
    simp only [getUserStudyGroups, List.mem_filter, List.contains,
      List.elem_eq_mem, decide_eq_true_eq, List.mem_map, List.mem_filter,
      beq_iff_eq]
    constructor
    · rintro ⟨hg, m, ⟨hm, hmu⟩, hmg⟩
      exact ⟨hg, m, hm, hmu, hmg⟩
    · rintro ⟨hg, m, hm, hmu, hmg⟩
      exact ⟨hg, m, ⟨hm, hmu⟩, hmg⟩

theorem c10_user_groups_nodup_witness :
    (dupMemberStore.studyGroups.map StudyGroup.id).Nodup ∧
    (getUserStudyGroups dupMemberStore 2).Nodup ∧
    (getUserStudyGroups dupMemberStore 2).length = 1 := by
  have h : (dupMemberStore.studyGroups.map StudyGroup.id).Nodup := by decide
  exact ⟨h, (c10_user_groups_nodup dupMemberStore 2).1 h, by decide⟩

/-- C3 counterexample: reads hand back the stored reference, not a copy.
Concretely: create a paper (id 1, stored at heap address 0); `getPaperRef`
returns address 0, the stored object itself; a caller writing
`downloads := 99` through that reference changes the entity the store holds
under id 1 — refuting "in-place mutation of the returned value by the
caller leaves the entity held in the store unchanged". -/
theorem c3_reads_are_copies_counterexample :
    getPaperRef (createPaperRef initHeapStore sampleInsertPaper 0).2 1
      = some 0 ∧
    storedPaper (createPaperRef initHeapStore sampleInsertPaper 0).2 1
      = some { id := 1, uploaderId := 1, title := "t", course := "c"
               year := 2024, institution := "i", fileUrl := "u"
               uploadDate := 0, downloads := 0 } ∧
    storedPaper
        (callerMutate (createPaperRef initHeapStore sampleInsertPaper 0).2 0
          { id := 1, uploaderId := 1, title := "t", course := "c"
            year := 2024, institution := "i", fileUrl := "u"
            uploadDate := 0, downloads := 99 }) 1
      = some { id := 1, uploaderId := 1, title := "t", course := "c"
               year := 2024, institution := "i", fileUrl := "u"
               uploadDate := 0, downloads := 99 } ∧
    storedPaper
        (callerMutate (createPaperRef initHeapStore sampleInsertPaper 0).2 0
          { id := 1, uploaderId := 1, title := "t", course := "c"
            year := 2024, institution := "i", fileUrl := "u"
            uploadDate := 0, downloads := 99 }) 1
      ≠ storedPaper (createPaperRef initHeapStore sampleInsertPaper 0).2 1 :=
  ⟨rfl, rfl, rfl, by decide⟩

/-- C3 amended: a read hands the caller a reference aliasing the stored
entity (the store's view under `id` and the heap cell behind the returned
reference are one and the same), so a caller mutating in place through that
reference changes the stored entity; stored state is therefore not
protected by copy-on-read, and only discipline — callers mutating solely
via the store's update operations, which allocate fresh objects — keeps it
consistent. -/
theorem c3_reads_alias_stored_state (s : PaperHeapStore) (id a : Nat)
    (ha : getPaperRef s id = some a) (hlt : a < s.heap.length) :
    storedPaper s id = heapRead s.heap a ∧
    ∀ p', storedPaper (callerMutate s a p') id = some p' := by
  constructor
  · simp [storedPaper, ha]
  · intro p'
    have h2 : getPaperRef (callerMutate s a p') id = some a := ha
    show (getPaperRef (callerMutate s a p') id).bind
        (fun x => heapRead (callerMutate s a p').heap x) = some p'
    rw [h2]
    show heapRead (s.heap.set a p') a = some p'
    exact List.getElem?_set_self hlt

theorem c3_reads_alias_stored_state_witness :
    getPaperRef (createPaperRef initHeapStore sampleInsertPaper 0).2 1
      = some 0 ∧
    (0 : Nat) < (createPaperRef initHeapStore sampleInsertPaper 0).2.heap.length ∧
    storedPaper
        (callerMutate (createPaperRef initHeapStore sampleInsertPaper 0).2 0
          { id := 1, uploaderId := 1, title := "t", course := "c"
            year := 2024, institution := "i", fileUrl := "u"
            uploadDate := 0, downloads := 99 }) 1
      = some { id := 1, uploaderId := 1, title := "t", course := "c"
               year := 2024, institution := "i", fileUrl := "u"
               uploadDate := 0, downloads := 99 } := by
  have ha : getPaperRef (createPaperRef initHeapStore sampleInsertPaper 0).2 1
      = some 0 := rfl
  have hlt : (0 : Nat)
      < (createPaperRef initHeapStore sampleInsertPaper 0).2.heap.length := by
    decide
  exact ⟨ha, hlt,
    (c3_reads_alias_stored_state _ 1 0 ha hlt).2 _⟩

end StudySphere
